import Mathlib

/-!
Verification development for the PyArchery Runtime Dependency Provisioning &
Bootstrap subsystem (`src/pyarchery/setup_java.py`).

The Python code is shallowly embedded: Python strings become `List Char`,
the filesystem becomes an association list from path to content, fallible
operations return `Except`, and the process-wide JVM bootstrap is modelled
both as a sequential function on an explicit state record and as an
interleaving transition system for the concurrency claim.
-/

set_option maxRecDepth 4000

/-- Python strings are modelled as lists of characters. -/
abbrev Str := List Char

/-- Coerce a Lean string literal to the model's string type. -/
def str (s : String) : Str := s.data

/-- Python `str.lower()` (ASCII-level, which covers all strings at play). -/
def strLower (s : Str) : Str := s.map Char.toLower

/-- Whitespace as recognised by Python `str.strip()` / `str.split(None)`
for the ASCII range. -/
def isWs (c : Char) : Bool := c = ' ' ∨ c = '\t' ∨ c = '\n' ∨ c = '\r'

/-- Python `str.strip()`: drop leading and trailing whitespace. -/
def strStrip (s : Str) : Str :=
  ((s.dropWhile isWs).reverse.dropWhile isWs).reverse

/-- Python `str.split(sep)` for a single-character separator, as used by
`dep.split(":")`. -/
def splitOnChar (sep : Char) : Str → List Str
  | [] => [[]]
  | c :: rest =>
    let r := splitOnChar sep rest
    if c = sep then [] :: r
    else match r with
      | [] => [[c]]
      | p :: ps => (c :: p) :: ps

/-- Python `needle in haystack` on strings (substring containment). -/
def containsSub (needle : Str) : Str → Bool
  | [] => needle.isPrefixOf []
  | c :: rest => needle.isPrefixOf (c :: rest) || containsSub needle rest

/-- Fuelled worker for `replaceAll`. -/
def replaceAllAux (pat rep : Str) : Nat → Str → Str
  | 0, hay => hay
  | _ + 1, [] => []
  | n + 1, c :: rest =>
    if pat ≠ [] ∧ pat.isPrefixOf (c :: rest) then
      rep ++ replaceAllAux pat rep n ((c :: rest).drop pat.length)
    else
      c :: replaceAllAux pat rep n rest

/-- Python `str.replace(pat, rep)`: replace every (non-overlapping,
leftmost-first) occurrence of `pat`.  The degenerate empty pattern, which
never occurs in the embedded code, is a no-op here. -/
def replaceAll (pat rep hay : Str) : Str := replaceAllAux pat rep hay.length hay

/-- Python `"/".join(parts)` and friends. -/
def joinWith (sep : Str) : List Str → Str
  | [] => []
  | [p] => p
  | p :: rest => p ++ sep ++ joinWith sep rest

/-- Python `str.split(None, 1)` applied to an already-stripped line:
split on the first run of whitespace into two fields, or `none` when the
line holds fewer than two fields (Python raises `ValueError` on unpacking). -/
def splitFirstWs (l : Str) : Option (Str × Str) :=
  let tok := l.takeWhile (fun c => ¬ isWs c)
  let rest := (l.dropWhile (fun c => ¬ isWs c)).dropWhile isWs
  if rest = [] then none else some (tok, rest)

/-- A Python `dict[str, str]` as an association list (most recent binding
first). -/
abbrev Dict := List (Str × Str)

/-- `d.get(k)` -/
def dictGet (d : Dict) (k : Str) : Option Str :=
  (d.find? (fun e => e.1 = k)).map (·.2)

/-- `d[k] = v` (overwrites any previous binding). -/
def dictInsert (d : Dict) (k : Str) (v : Str) : Dict :=
  (k, v) :: d.filter (fun e => ¬ e.1 = k)

/-- File contents as byte lists. -/
abbrev Bytes := List Nat

/-- The filesystem fragment the downloader touches: path ↦ content. -/
abbrev FS := List (Str × Bytes)

def fsLookup (fs : FS) (p : Str) : Option Bytes :=
  (fs.find? (fun e => e.1 = p)).map (·.2)

def fsInsert (fs : FS) (p : Str) (b : Bytes) : FS :=
  (p, b) :: fs.filter (fun e => ¬ e.1 = p)

def fsErase (fs : FS) (p : Str) : FS :=
  fs.filter (fun e => ¬ e.1 = p)

/-! ## Checksum Registry (`_load_checksums`, `_get_checksums`) -/

/-- Errors of the embedded subsystem. -/
inductive PErr where
  /-- `FileNotFoundError("Checksum file is required but missing")` -/
  | missingManifest : PErr
  /-- network-level failure of the HTTP GET -/
  | ioFailure : PErr
  /-- `RuntimeError(f"Failed to download ... (status ... )")` -/
  | downloadFailed (status : Nat) (reason : Str) : PErr
  /-- `RuntimeError(f"Checksum mismatch ...: expected ..., got ...")` -/
  | checksumMismatch (expected actual : Str) : PErr
  /-- `ValueError` from unpacking a dependency line with the wrong arity -/
  | malformedDep : PErr
  /-- `RuntimeError(f"Checksum required but missing for ...")` -/
  | missingChecksum (file : Str) : PErr
deriving DecidableEq, Repr

/-- One iteration of the `for line in fh` loop body of `_load_checksums`:
strip, skip blanks and `#` comments, `line.split(None, 1)` into
`(checksum, filename)` storing `checksums[filename] = checksum`, and a
`ValueError` (fewer than two fields) is caught and the line skipped. -/
def loadChecksumLine (acc : Dict) (line : Str) : Dict :=
  let l := strStrip line
  if l = [] ∨ l.head? = some '#' then acc
  else
    match splitFirstWs l with
    | some (checksum, filename) => dictInsert acc filename checksum
    | none => acc

/-- `_load_checksums`: `fileLines = none` models a missing file
(`os.path.exists` false); otherwise the file's lines are folded through
`loadChecksumLine`. -/
def _load_checksums (requireChecksums : Bool) (fileLines : Option (List Str)) :
    Except PErr Dict :=
  match fileLines with
  | none =>
    if requireChecksums then .error .missingManifest else .ok []
  | some lines => .ok (lines.foldl loadChecksumLine [])

/-- The `functools.cache` memo table of `_get_checksums`:
path ↦ cached result.  Only successful results are cached (a raising call
is not memoized by `functools.cache`). -/
abbrev ChecksumCache := List (Str × Dict)

/-- The file store the registry reads from: path ↦ lines. -/
abbrev LineFS := List (Str × List Str)

def lineFsLookup (fs : LineFS) (p : Str) : Option (List Str) :=
  (fs.find? (fun e => e.1 = p)).map (·.2)

/-- `_get_checksums` with the `functools.cache` memoization made explicit:
a hit returns the cached mapping without touching the file store; a miss
runs `_load_checksums` and records a successful result. -/
def _get_checksums (requireChecksums : Bool) (files : LineFS)
    (cache : ChecksumCache) (path : Str) : Except PErr Dict × ChecksumCache :=
  match (cache.find? (fun e => e.1 = path)).map (·.2) with
  | some r => (.ok r, cache)
  | none =>
    match _load_checksums requireChecksums (lineFsLookup files path) with
    | .ok r => (.ok r, (path, r) :: cache)
    | .error e => (.error e, cache)

/-- `_get_checksums.cache_clear()` (exposed by `functools.cache`). -/
def checksumCacheClear : ChecksumCache := []

/-! ## Atomic Downloader (`_sha256_file`, `_download_with_verification`) -/

/-- Outcome of `_SESSION.get(url, ...)`: either a transport-level error or a
response with a status code, reason phrase and body. -/
inductive HttpOutcome where
  | ioError : HttpOutcome
  | resp (status : Nat) (reason : Str) (body : Bytes) : HttpOutcome
deriving DecidableEq, Repr

/-- Python truthiness of an optional string (`if checksum:`): `None` and the
empty string are falsy. -/
def strTruthy : Option Str → Bool
  | none => false
  | some s => s ≠ []

/-- `_sha256_file`: hash the content stored at `path`.  The SHA-256 digest
itself is an abstract parameter `sha` of the model. -/
def _sha256_file (sha : Bytes → Str) (fs : FS) (path : Str) : Option Str :=
  (fsLookup fs path).map sha

/-- `_download_with_verification url target_path checksum`, embedded over an
explicit filesystem.  `tmp_path` is the name `tempfile.mkstemp` picked (a
fresh file in `dirname(target_path)`), `http` the outcome of the GET.

Mirrors the source: create the temp file; non-200 status or transport error
raises after removing the temp file; the body is streamed into the temp
file; with a truthy `checksum` the temp file's digest must match
case-insensitively or the temp file is removed and the call raises;
finally `os.replace(tmp_path, target_path)`. -/
def _download_with_verification (sha : Bytes → Str) (http : HttpOutcome)
    (tmp_path : Str) (target_path : Str) (checksum : Option Str) (fs : FS) :
    Except PErr Unit × FS :=
  let fs0 := fsInsert fs tmp_path []
  match http with
  | .ioError => (.error .ioFailure, fsErase fs0 tmp_path)
  | .resp status reason body =>
    if status ≠ 200 then
      (.error (.downloadFailed status reason), fsErase fs0 tmp_path)
    else
      let fs1 := fsInsert fs0 tmp_path body
      if strTruthy checksum then
        let c := checksum.getD []
        match _sha256_file sha fs1 tmp_path with
        | none => (.error .ioFailure, fsErase fs1 tmp_path)
        | some actual =>
          if strLower actual ≠ strLower c then
            (.error (.checksumMismatch c actual), fsErase fs1 tmp_path)
          else
            (.ok (), fsInsert (fsErase fs1 tmp_path) target_path body)
      else
        (.ok (), fsInsert (fsErase fs1 tmp_path) target_path body)

/-! ## Artifact Resolver (`_arch_matches_platform` and the descriptor
parsing head of `_install_one_dependency`) -/

/-- `_arch_matches_platform arch`: platform compatibility of a native
classifier.  `fetchAllNative` is the `FETCH_ALL_NATIVE` flag, `system` is
`sys.platform`, `machine` is `platform.machine()`. -/
def _arch_matches_platform (fetchAllNative : Bool) (system machine arch : Str) :
    Bool :=
  if fetchAllNative then true
  else
    let m := strLower machine
    let a := strLower arch
    let candidates : List Str :=
      if (str "linux").isPrefixOf system then
        [str "linux", str "linux-" ++ m]
      else if system = str "darwin" then
        [str "osx", str "macos", str "osx-" ++ m, str "macos-" ++ m]
      else if (str "win").isPrefixOf system then
        [str "windows", str "windows-" ++ m, str "win", str "win-" ++ m]
      else []
    candidates.any (fun c => c.isPrefixOf a)

/-- Result of the descriptor-parsing head of `_install_one_dependency`
(lines 153–172 of `setup_java.py`): skip the artifact, or the computed
remote filename, on-disk filename and base URL together with the fields
needed to build the URL. -/
inductive Resolution where
  | skip : Resolution
  | resolved (package name version file_name file_name_disk base_url : Str) :
      Resolution
deriving DecidableEq, Repr

/-- The descriptor-parsing head of `_install_one_dependency`: split `dep`
on `":"`; 4 fields give a plain artifact under `MAVEN_URL`; 5 fields are
platform-checked, and a version containing `"SNAPSHOT"` diverges the remote
filename (marker stripped, classifier embedded) from the on-disk filename
(full version kept) under `MAVEN_SNAPSHOT_URL`.  Any other arity raises
(`ValueError` on tuple unpacking). -/
def resolveDep (fetchAllNative : Bool) (system machine : Str)
    (maven_url maven_snapshot_url : Str) (dep : Str) :
    Except PErr Resolution :=
  match splitOnChar ':' dep with
  | [package, name, extension, version] =>
    .ok (.resolved package name version
      (name ++ str "-" ++ version ++ str "." ++ extension)
      (name ++ str "-" ++ version ++ str "." ++ extension)
      maven_url)
  | [package, name, extension, arch, version] =>
    if arch ≠ [] ∧ ¬ _arch_matches_platform fetchAllNative system machine arch
    then .ok .skip
    else if containsSub (str "SNAPSHOT") version then
      let v := replaceAll (str "-SNAPSHOT") [] version
      .ok (.resolved package name version
        (name ++ str "-" ++ v ++ str "-" ++ arch ++ str "." ++ extension)
        (name ++ str "-" ++ version ++ str "." ++ extension)
        maven_snapshot_url)
    else
      .ok (.resolved package name version
        (name ++ str "-" ++ version ++ str "-" ++ arch ++ str "." ++ extension)
        (name ++ str "-" ++ version ++ str "-" ++ arch ++ str "." ++ extension)
        maven_url)
  | _ => .error .malformedDep

/-! ## Dependency Installer (`_install_one_dependency`) -/

/-- Python `a or b` on `dict.get` results: a falsy (missing or empty)
first lookup falls through to the second. -/
def pyOr (a b : Option Str) : Option Str :=
  if strTruthy a then a else b

/-- Observable actions of one `_install_one_dependency` run, used to state
"no download was attempted" and "the stale file was deleted first". -/
inductive DepAction where
  | removeExisting (path : Str) : DepAction
  | download (url : Str) : DepAction
deriving DecidableEq, Repr

/-- `_install_one_dependency jars_path dep checksum_map` over the explicit
filesystem.  `requireChecksums` is `REQUIRE_CHECKSUMS`; `http` is consumed
by `_download_with_verification` if a download happens, with `tmp_path` the
temp name `mkstemp` picks then.  Returns the outcome, the filesystem, and
the trace of observable actions. -/
def _install_one_dependency (requireChecksums fetchAllNative : Bool)
    (system machine maven_url maven_snapshot_url : Str)
    (sha : Bytes → Str) (http : HttpOutcome) (tmp_path : Str)
    (jars_path : Str) (dep : Str) (checksum_map : Dict) (fs : FS) :
    Except PErr Unit × FS × List DepAction :=
  match resolveDep fetchAllNative system machine maven_url maven_snapshot_url
      dep with
  | .error e => (.error e, fs, [])
  | .ok .skip => (.ok (), fs, [])
  | .ok (.resolved package name version file_name file_name_disk base_url) =>
    let expected_checksum :=
      pyOr (dictGet checksum_map file_name_disk) (dictGet checksum_map file_name)
    if expected_checksum = none ∧ requireChecksums then
      (.error (.missingChecksum file_name_disk), fs, [])
    else
      let target_path := jars_path ++ str "/" ++ file_name_disk
      let url := joinWith (str "/")
        [base_url, replaceAll (str ".") (str "/") package, name, version,
          file_name]
      match fsLookup fs target_path with
      | some content =>
        if strTruthy expected_checksum then
          if strLower (sha content) = strLower (expected_checksum.getD []) then
            (.ok (), fs, [])
          else
            let fs1 := fsErase fs target_path
            let r := _download_with_verification sha http tmp_path target_path
              expected_checksum fs1
            (r.1, r.2, [.removeExisting target_path, .download url])
        else
          (.ok (), fs, [])
      | none =>
        let r := _download_with_verification sha http tmp_path target_path
          expected_checksum fs
        (r.1, r.2, [.download url])

/-! ## Bootstrap Coordinator (`start_java_archery_framework`), sequential
view.  One call of the function is embedded as a state transformer; the
fallible sub-operations (`shutil.rmtree`, `_install_all_dependencies`,
`jpype.startJVM`) are parameterised by their outcomes. -/

/-- Process-and-filesystem state read or written by one bootstrap call. -/
structure BootState where
  /-- `_jvm_lock` is held -/
  lockHeld : Bool
  /-- the global `_jvm_started` flag -/
  jvm_started : Bool
  /-- `jpype.isJVMStarted()` -/
  jvmRunning : Bool
  /-- `os.path.exists(jars_path)` -/
  jarsDirExists : Bool
  /-- `os.path.exists(jars_path / f"archery-{__version__}.jar")` -/
  expectedJarExists : Bool
deriving DecidableEq, Repr

/-- Outcomes of the fallible sub-operations of one bootstrap call. -/
structure BootEnv where
  rmtreeOutcome : Except PErr Unit
  installOutcome : Except PErr Unit
  launchOutcome : Except PErr Unit
deriving Repr

/-- Observable actions of one bootstrap call. -/
inductive BootAction where
  /-- `shutil.rmtree(jars_path)` -/
  | rmtreeCache : BootAction
  /-- `_install_all_dependencies(...)` -/
  | installDeps : BootAction
  /-- `jpype.startJVM(...)` -/
  | launchJvm : BootAction
deriving DecidableEq, Repr

/-- `start_java_archery_framework(force)`, sequentially.  `skip` is the
`SKIP_JVM_START` flag.  The `with _jvm_lock:` block is entered by setting
`lockHeld` and every exit path (return or raise) clears it.  The body
mirrors the source: double-checked started test, adoption of an externally
started JVM, stale-cache wipe, conditional install, launch, and only then
`_jvm_started = True`. -/
def start_java_archery_framework (skip force : Bool) (env : BootEnv)
    (st : BootState) : Except PErr Unit × BootState × List BootAction :=
  if skip ∧ ¬ force then (.ok (), st, [])
  else
    let s1 : BootState := { st with lockHeld := true }
    if s1.jvm_started ∧ s1.jvmRunning then
      (.ok (), { s1 with lockHeld := false }, [])
    else if s1.jvmRunning then
      (.ok (), { s1 with jvm_started := true, lockHeld := false }, [])
    else
      let stale := s1.jarsDirExists ∧ ¬ s1.expectedJarExists
      let afterRm : Except PErr BootState :=
        if stale then
          match env.rmtreeOutcome with
          | .ok _ =>
            .ok { s1 with jarsDirExists := false, expectedJarExists := false }
          | .error e => .error e
        else .ok s1
      let trRm : List BootAction := if stale then [.rmtreeCache] else []
      match afterRm with
      | .error e => (.error e, { s1 with lockHeld := false }, trRm)
      | .ok s2 =>
        let afterInstall : Except PErr BootState :=
          if ¬ s2.jarsDirExists then
            match env.installOutcome with
            | .ok _ => .ok { s2 with jarsDirExists := true }
            | .error e => .error e
          else .ok s2
        let trInstall : List BootAction :=
          if ¬ s2.jarsDirExists then [.installDeps] else []
        match afterInstall with
        | .error e => (.error e, { s2 with lockHeld := false }, trRm ++ trInstall)
        | .ok s3 =>
          match env.launchOutcome with
          | .error e =>
            (.error e, { s3 with lockHeld := false },
              trRm ++ trInstall ++ [.launchJvm])
          | .ok _ =>
            (.ok (),
              { s3 with
                  jvmRunning := true
                  jvm_started := true
                  lockHeld := false },
              trRm ++ trInstall ++ [.launchJvm])

/-! ## Bootstrap Coordinator, concurrent view.  The same function, as an
interleaving transition system over `n` caller threads sharing `_jvm_lock`,
`_jvm_started` and the JVM.  Failure-free executions are modelled (the
sequential view above covers the failure paths). -/

/-- Program counter of one caller of `start_java_archery_framework`. -/
inductive TPC where
  /-- before `with _jvm_lock:` -/
  | idle : TPC
  /-- holding the lock, at the double-checked state reads -/
  | check : TPC
  /-- holding the lock, about to install and `jpype.startJVM` -/
  | boot : TPC
  /-- returned -/
  | finished : TPC
deriving DecidableEq, Repr

/-- Shared state of `n` concurrent callers. -/
structure CState (n : Nat) where
  /-- which thread holds `_jvm_lock`, if any -/
  lock : Option (Fin n)
  /-- the global `_jvm_started` flag -/
  started : Bool
  /-- `jpype.isJVMStarted()` -/
  running : Bool
  /-- number of `jpype.startJVM` calls performed so far -/
  launches : Nat
  /-- per-thread program counter -/
  pc : Fin n → TPC

/-- All callers about to enter, lock free, JVM not yet started. -/
def cInit (n : Nat) : CState n :=
  { lock := none, started := false, running := false, launches := 0,
    pc := fun _ => .idle }

/-- One interleaved step: a thread acquires `_jvm_lock`, runs the
double-checked fast return, adopts an externally running JVM, proceeds to
the install-and-start sequence, or launches the JVM and releases. -/
inductive CStep (n : Nat) : CState n → CState n → Prop where
  | acquire (s : CState n) (i : Fin n) :
      s.pc i = .idle → s.lock = none →
      CStep n s { s with lock := some i, pc := Function.update s.pc i TPC.check }
  | fastReturn (s : CState n) (i : Fin n) :
      s.pc i = .check → s.lock = some i → s.started = true → s.running = true →
      CStep n s { s with lock := none, pc := Function.update s.pc i TPC.finished }
  | adoptExternal (s : CState n) (i : Fin n) :
      s.pc i = .check → s.lock = some i → s.started = false →
      s.running = true →
      CStep n s { s with
        started := true
        lock := none
        pc := Function.update s.pc i TPC.finished }
  | proceed (s : CState n) (i : Fin n) :
      s.pc i = .check → s.lock = some i → s.running = false →
      CStep n s { s with pc := Function.update s.pc i TPC.boot }
  | launch (s : CState n) (i : Fin n) :
      s.pc i = .boot → s.lock = some i →
      CStep n s { s with
        running := true
        started := true
        launches := s.launches + 1
        lock := none
        pc := Function.update s.pc i TPC.finished }

/-- Reachability in the interleaving semantics. -/
def CReach (n : Nat) : CState n → CState n → Prop :=
  Relation.ReflTransGen (CStep n)

deriving instance DecidableEq for Except

/-! ## Association-list lemmas shared by the claims below -/

theorem fsLookup_cons (e : Str × Bytes) (t : FS) (q : Str) :
    fsLookup (e :: t) q = if e.1 = q then some e.2 else fsLookup t q := by
  by_cases h : e.1 = q
  · simp [fsLookup, List.find?_cons_of_pos, h]
  · simp [fsLookup, List.find?_cons_of_neg, h]

theorem fsLookup_filter (fs : FS) (p q : Str) :
    fsLookup (fs.filter (fun e => ¬ e.1 = p)) q =
      if q = p then none else fsLookup fs q := by
  induction fs with
  | nil => simp [fsLookup]
  | cons e t ih =>
    rw [List.filter_cons]
    by_cases hep : e.1 = p
    · rw [if_neg (by simp [hep]), ih, fsLookup_cons]
      by_cases hqp : q = p
      · simp [hqp]
      · rw [if_neg hqp, if_neg hqp, if_neg (fun h : e.1 = q => hqp (h ▸ hep ▸ rfl))]
    · rw [if_pos (by simp [hep]), fsLookup_cons, fsLookup_cons]
      by_cases heq : e.1 = q
      · rw [if_pos heq, if_neg (fun h : q = p => hep (heq.trans h)), if_pos heq]
      · rw [if_neg heq, if_neg heq, ih]

theorem fsLookup_insert_self (fs : FS) (p : Str) (b : Bytes) :
    fsLookup (fsInsert fs p b) p = some b := by
  rw [fsInsert, fsLookup_cons, if_pos rfl]

theorem fsLookup_insert_ne (fs : FS) (p q : Str) (b : Bytes) (h : q ≠ p) :
    fsLookup (fsInsert fs p b) q = fsLookup fs q := by
  rw [fsInsert, fsLookup_cons, if_neg (fun hpq : p = q => h hpq.symm),
    fsLookup_filter, if_neg h]

theorem fsLookup_erase_self (fs : FS) (p : Str) :
    fsLookup (fsErase fs p) p = none := by
  rw [fsErase, fsLookup_filter, if_pos rfl]

theorem fsLookup_erase_ne (fs : FS) (p q : Str) (h : q ≠ p) :
    fsLookup (fsErase fs p) q = fsLookup fs q := by
  rw [fsErase, fsLookup_filter, if_neg h]

/-- C10: a classifier whose lowercase form begins with the bare OS family
name of the running platform is accepted whatever machine architecture it
names, because the bare name is itself a candidate prefix. -/
theorem arch_bare_os_family_matches (fetchAll : Bool) (system machine arch : Str)
    (h :
      ((str "linux").isPrefixOf system = true ∧
        (str "linux").isPrefixOf (strLower arch) = true) ∨
      (system = str "darwin" ∧
        ((str "osx").isPrefixOf (strLower arch) = true ∨
         (str "macos").isPrefixOf (strLower arch) = true)) ∨
      ((str "win").isPrefixOf system = true ∧
        ((str "windows").isPrefixOf (strLower arch) = true ∨
         (str "win").isPrefixOf (strLower arch) = true))) :
    _arch_matches_platform fetchAll system machine arch = true := by
  cases fetchAll with
  | true => rfl
  | false =>
    rcases h with ⟨h1, h2⟩ | ⟨h1, h2⟩ | ⟨h1, h2⟩
    · simp [_arch_matches_platform, h1, h2]
    · subst h1
      rcases h2 with h2 | h2 <;>
        simp [_arch_matches_platform, h2, show (str "linux").isPrefixOf (str "darwin") = false from rfl]
    · match system, h1 with
      | c :: rest, h1 =>
        have hc : c = 'w' := by
          by_cases hcw : c = 'w'
          · exact hcw
          · exfalso
            rw [show str "win" = 'w' :: str "in" from rfl, List.isPrefixOf] at h1
            simp [beq_iff_eq] at h1
            exact hcw h1.1.symm
        subst hc
        have hrest : (['i', 'n'] : List Char) <+: rest := by
          simpa [str] using h1
        have h2' : ∃ x, ((['i', 'n'] : List Char) <+: rest ∧
            (x = str "windows" ∨ x = str "windows-" ++ strLower machine ∨
              x = str "win" ∨ x = str "win-" ++ strLower machine)) ∧
            x <+: strLower arch := by
          rcases h2 with h2 | h2
          · exact ⟨str "windows", ⟨hrest, Or.inl rfl⟩, by simpa [str] using h2⟩
          · exact ⟨str "win", ⟨hrest, Or.inr (Or.inr (Or.inl rfl))⟩,
              by simpa [str] using h2⟩
        simpa [_arch_matches_platform, str] using h2'

/-- Witness for C10: `linux-arm64` is accepted on a `linux`/`x86_64` host
even with the fetch-all override off. -/
theorem arch_bare_os_family_matches_witness :
    _arch_matches_platform false (str "linux") (str "x86_64") (str "linux-arm64") = true :=
  arch_bare_os_family_matches false (str "linux") (str "x86_64")
    (str "linux-arm64") (Or.inl ⟨by decide, by decide⟩)

/-- Modelled from the spec's words, used only to compare spec and code in
C7: a checksum-manifest line "matches the form `<sha256-hex> <filename>`"
when it splits on whitespace into two fields whose first is a 64-digit
hexadecimal string. -/
def specLineMatchesSha256Form (line : Str) : Bool :=
  match splitFirstWs (strStrip line) with
  | some (d, f) =>
    d.length == 64 &&
      d.all (fun c => c.isDigit || ('a' ≤ c && c ≤ 'f') || ('A' ≤ c && c ≤ 'F')) &&
      !f.isEmpty
  | none => false

/-- C7 counterexample: the line `"zz file.jar"` does not match the form
`<sha256-hex> <filename>` (its first field is not a hex digest), yet
`_load_checksums` enters it into the mapping instead of excluding it. -/
theorem checksum_nonhex_line_not_excluded :
    specLineMatchesSha256Form (str "zz file.jar") = false ∧
    _load_checksums false (some [str "zz file.jar"]) =
      .ok [(str "file.jar", str "zz")] := by decide

/-- C7 (amended): after blank/comment filtering, `_load_checksums` excludes
exactly the lines that cannot be split on whitespace into two fields — the
digest field is never validated — and it never raises; a line that does
split is split on its first whitespace run and entered as
filename ↦ digest. -/
theorem checksum_line_exclusion_policy (req : Bool) (pre post : List Str)
    (line : Str) :
    ((strStrip line = [] ∨ (strStrip line).head? = some '#' ∨
        splitFirstWs (strStrip line) = none) →
      _load_checksums req (some (pre ++ line :: post)) =
        _load_checksums req (some (pre ++ post))) ∧
    (∀ d f, splitFirstWs (strStrip line) = some (d, f) →
      (strStrip line).head? ≠ some '#' →
      _load_checksums req (some (pre ++ [line])) =
        .ok (dictInsert (pre.foldl loadChecksumLine []) f d)) := by
  constructor
  · intro h
    have hstep : ∀ acc, loadChecksumLine acc line = acc := by
      intro acc
      unfold loadChecksumLine
      by_cases hb : strStrip line = [] ∨ (strStrip line).head? = some '#'
      · simp [hb]
      · rcases h with h | h | h
        · exact absurd (Or.inl h) hb
        · exact absurd (Or.inr h) hb
        · simp [hb, h]
    simp [_load_checksums, List.foldl_append, hstep]
  · intro d f hsplit hcomment
    have hnotblank : ¬(strStrip line = [] ∨ (strStrip line).head? = some '#') := by
      rintro (hb | hb)
      · rw [hb] at hsplit
        simp [splitFirstWs] at hsplit
      · exact hcomment hb
    simp [_load_checksums, List.foldl_append, loadChecksumLine, hnotblank,
      hsplit]

/-- Witness for C7's amended theorem: a line with no whitespace is skipped,
and a two-field line is entered as filename ↦ digest. -/
theorem checksum_line_exclusion_policy_witness :
    _load_checksums false (some [str "nowhitespace", str "aa f.jar"]) =
      _load_checksums false (some [str "aa f.jar"]) ∧
    _load_checksums false (some [str "aa f.jar"]) =
      .ok (dictInsert ([] : Dict) (str "f.jar") (str "aa")) :=
  ⟨(checksum_line_exclusion_policy false [] [str "aa f.jar"]
      (str "nowhitespace")).1 (by decide),
    (checksum_line_exclusion_policy false [] [] (str "aa f.jar")).2
      (str "aa") (str "f.jar") (by decide) (by decide)⟩

/-- C6 counterexample: a 201 response — a success status in the 2xx range —
is rejected with `DownloadFailed` instead of proceeding to the
checksum/install steps. -/
theorem download_rejects_2xx_201 :
    200 ≤ 201 ∧ 201 < 300 ∧
    (_download_with_verification (fun _ => []) (.resp 201 [] [1])
        (str "a.part") (str "a.jar") none []).1 =
      .error (.downloadFailed 201 []) := by decide

/-- C6 (amended): `_download_with_verification` fails with a `DownloadFailed`
error carrying the status and reason iff the HTTP status is not exactly 200;
a 200 response proceeds to the checksum/install steps (any error it still
raises is a checksum mismatch). -/
theorem download_failed_iff_status_not_200 (sha : Bytes → Str) (status : Nat)
    (reason : Str) (body : Bytes) (tmp target : Str) (checksum : Option Str)
    (fs : FS) :
    ((_download_with_verification sha (.resp status reason body) tmp target
        checksum fs).1 = .error (.downloadFailed status reason) ↔
      status ≠ 200) ∧
    (status = 200 →
      ∀ e, (_download_with_verification sha (.resp status reason body) tmp
          target checksum fs).1 = .error e →
        ∃ c actual, e = .checksumMismatch c actual) := by
  by_cases h200 : status = 200
  · subst h200
    have hsha : _sha256_file sha (fsInsert (fsInsert fs tmp []) tmp body) tmp =
        some (sha body) := by
      rw [_sha256_file, fsLookup_insert_self]
      rfl
    unfold _download_with_verification
    simp only [ne_eq, not_true_eq_false, if_false, ite_false, hsha]
    constructor
    · by_cases htr : strTruthy checksum = true
      · simp only [htr, if_true, hsha]
        by_cases hmm : strLower (sha body) ≠ strLower (checksum.getD [])
        · simp [hmm]
        · simp [hmm]
      · simp [htr]
    · intro _ e
      by_cases htr : strTruthy checksum = true
      · simp only [htr, if_true, hsha]
        by_cases hmm : strLower (sha body) ≠ strLower (checksum.getD [])
        · simp only [hmm, if_true]
          intro he
          exact ⟨_, _, by injection he with h; exact h.symm⟩
        · simp [hmm]
      · simp [htr]
  · unfold _download_with_verification
    simp [h200]

/-- Witness for C6's amended theorem: a 404 fails with `DownloadFailed`,
and a 200 with a mismatching digest fails only with a checksum mismatch. -/
theorem download_failed_iff_status_not_200_witness :
    (_download_with_verification (fun _ => str "aa") (.resp 404 (str "NF") [1])
        (str "t.part") (str "f.jar") none []).1 =
      .error (.downloadFailed 404 (str "NF")) ∧
    (∃ c actual,
      (PErr.checksumMismatch (str "bb") (str "aa")) =
        .checksumMismatch c actual) :=
  ⟨(download_failed_iff_status_not_200 (fun _ => str "aa") 404 (str "NF") [1]
      (str "t.part") (str "f.jar") none []).1.mpr (by decide),
    (download_failed_iff_status_not_200 (fun _ => str "aa") 200 (str "NF") [1]
      (str "t.part") (str "f.jar") (some (str "bb")) []).2 rfl
      (.checksumMismatch (str "bb") (str "aa")) (by decide)⟩

/-- C8: a successful `_get_checksums` call is memoized — a second call with
the same path returns the identical result and leaves the cache unchanged
even if the file store changed in between; after `cache_clear`, the call
re-reads the store and returns exactly what `_load_checksums` sees there. -/
theorem get_checksums_memoized (req : Bool) (files files2 : LineFS)
    (cache c1 : ChecksumCache) (path : Str) (r : Dict)
    (h : _get_checksums req files cache path = (.ok r, c1)) :
    _get_checksums req files2 c1 path = (.ok r, c1) ∧
    (_get_checksums req files2 checksumCacheClear path).1 =
      _load_checksums req (lineFsLookup files2 path) := by
  constructor
  · have hc1 : (c1.find? (fun e => e.1 = path)).map (·.2) = some r := by
      unfold _get_checksums at h
      cases hm : (cache.find? (fun e => e.1 = path)).map (·.2) with
      | some r0 =>
        rw [hm] at h
        have h1 : cache = c1 := congrArg Prod.snd h
        have h2 : r0 = r := by
          have := congrArg Prod.fst h
          simpa using this
        rw [← h1, hm, h2]
      | none =>
        rw [hm] at h
        cases hl : _load_checksums req (lineFsLookup files path) with
        | ok r2 =>
          rw [hl] at h
          have h1 : (path, r2) :: cache = c1 := congrArg Prod.snd h
          have h2 : r2 = r := by
            have := congrArg Prod.fst h
            simpa using this
          rw [← h1]
          simp [List.find?, h2]
        | error e =>
          rw [hl] at h
          exact absurd (congrArg Prod.fst h) (by simp)
    unfold _get_checksums
    rw [hc1]
  · unfold _get_checksums
    cases hl : _load_checksums req (lineFsLookup files2 path) <;>
      simp [checksumCacheClear, hl]

/-- Witness for C8: a cached path keeps returning the first result after the
file changed; after `cache_clear` the new content is reflected. -/
theorem get_checksums_memoized_witness :
    _get_checksums false [(str "p", [str "bb f.jar"])]
        [(str "p", [(str "f.jar", str "aa")])] (str "p") =
      (.ok [(str "f.jar", str "aa")], [(str "p", [(str "f.jar", str "aa")])]) ∧
    (_get_checksums false [(str "p", [str "bb f.jar"])] checksumCacheClear
        (str "p")).1 =
      _load_checksums false
        (lineFsLookup [(str "p", [str "bb f.jar"])] (str "p")) :=
  get_checksums_memoized false [(str "p", [str "aa f.jar"])]
    [(str "p", [str "bb f.jar"])] [] [(str "p", [(str "f.jar", str "aa")])]
    (str "p") [(str "f.jar", str "aa")] (by decide)

/-- C2: every failing `_download_with_verification` run removes the
temporary file and leaves `target_path` exactly as it was (in particular a
checksum mismatch never creates a file there), and a successful run with a
supplied checksum leaves a file at `target_path` whose digest equals the
expected one up to case. -/
theorem download_cleanup_and_verified_install (sha : Bytes → Str)
    (http : HttpOutcome) (tmp target : Str) (checksum : Option Str) (fs : FS)
    (hne : tmp ≠ target) :
    (∀ e fs2, _download_with_verification sha http tmp target checksum fs =
        (.error e, fs2) →
      fsLookup fs2 tmp = none ∧ fsLookup fs2 target = fsLookup fs target) ∧
    (∀ c fs2, checksum = some c → c ≠ [] →
      _download_with_verification sha http tmp target checksum fs =
        (.ok (), fs2) →
      ∃ body, fsLookup fs2 target = some body ∧
        strLower (sha body) = strLower c) := by
  have htne : target ≠ tmp := fun ht => hne ht.symm
  unfold _download_with_verification
  cases http with
  | ioError =>
    dsimp only
    constructor
    · intro e fs2 h
      rw [← show fsErase (fsInsert fs tmp []) tmp = fs2 from congrArg Prod.snd h]
      refine ⟨fsLookup_erase_self _ _, ?_⟩
      rw [fsLookup_erase_ne _ _ _ htne, fsLookup_insert_ne _ _ _ _ htne]
    · intro c fs2 _ _ h
      exact absurd (congrArg Prod.fst h) (by simp)
  | resp status reason body =>
    dsimp only
    by_cases h200 : status = 200
    · subst h200
      rw [if_neg (by simp)]
      have hsha : _sha256_file sha (fsInsert (fsInsert fs tmp []) tmp body)
          tmp = some (sha body) := by
        rw [_sha256_file, fsLookup_insert_self]
        rfl
      by_cases htr : strTruthy checksum = true
      · rw [if_pos htr, hsha]
        dsimp only
        by_cases hmm : strLower (sha body) ≠ strLower (checksum.getD [])
        · rw [if_pos hmm]
          constructor
          · intro e fs2 h
            rw [← show fsErase (fsInsert (fsInsert fs tmp []) tmp body) tmp =
                fs2 from congrArg Prod.snd h]
            refine ⟨fsLookup_erase_self _ _, ?_⟩
            rw [fsLookup_erase_ne _ _ _ htne,
              fsLookup_insert_ne _ _ _ _ htne,
              fsLookup_insert_ne _ _ _ _ htne]
          · intro c fs2 _ _ h
            exact absurd (congrArg Prod.fst h) (by simp)
        · rw [if_neg hmm]
          constructor
          · intro e fs2 h
            exact absurd (congrArg Prod.fst h) (by simp)
          · intro c fs2 hc _ h
            refine ⟨body, ?_, ?_⟩
            · rw [← show fsInsert (fsErase (fsInsert (fsInsert fs tmp []) tmp
                  body) tmp) target body = fs2 from congrArg Prod.snd h]
              exact fsLookup_insert_self _ _ _
            · have := not_not.mp hmm
              rw [hc] at this
              simpa using this
      · rw [if_neg htr]
        constructor
        · intro e fs2 h
          exact absurd (congrArg Prod.fst h) (by simp)
        · intro c fs2 hc hcne h
          rw [hc] at htr
          exact absurd (by simpa [strTruthy] using hcne) htr
    · rw [if_pos h200]
      constructor
      · intro e fs2 h
        rw [← show fsErase (fsInsert fs tmp []) tmp = fs2 from
          congrArg Prod.snd h]
        refine ⟨fsLookup_erase_self _ _, ?_⟩
        rw [fsLookup_erase_ne _ _ _ htne, fsLookup_insert_ne _ _ _ _ htne]
      · intro c fs2 _ _ h
        exact absurd (congrArg Prod.fst h) (by simp)

/-- Witness for C2: a 500 response leaves the pre-existing target intact and
no temp file; a 200 response with a matching (case-insensitive) checksum
installs the body at the target. -/
theorem download_cleanup_and_verified_install_witness :
    (fsLookup [(str "f.jar", ([7] : Bytes))] (str "t.part") = none ∧
      fsLookup [(str "f.jar", ([7] : Bytes))] (str "f.jar") =
        fsLookup [(str "f.jar", ([7] : Bytes))] (str "f.jar")) ∧
    (∃ body, fsLookup [(str "f.jar", ([1] : Bytes))] (str "f.jar") =
        some body ∧
      strLower ((fun _ : Bytes => str "AB") body) = strLower (str "ab")) :=
  ⟨(download_cleanup_and_verified_install (fun _ => str "AB")
      (.resp 500 [] []) (str "t.part") (str "f.jar") none
      [(str "f.jar", [7])] (by decide)).1
      (.downloadFailed 500 []) [(str "f.jar", [7])] (by decide),
    (download_cleanup_and_verified_install (fun _ => str "AB")
      (.resp 200 [] [1]) (str "t.part") (str "f.jar") (some (str "ab")) []
      (by decide)).2
      (str "ab") [(str "f.jar", [1])] rfl (by decide) (by decide)⟩

/-- C5: when the installer's local target file already exists — with an
available matching checksum it is reused with no download; with a
mismatching checksum it is deleted and the artifact re-downloaded; with no
available checksum (and checksums not required) it is reused unverified. -/
theorem existing_dependency_reuse_policy (req fetchAll : Bool)
    (system machine R S : Str) (sha : Bytes → Str) (http : HttpOutcome)
    (tmp jars dep : Str) (m : Dict) (fs : FS)
    (pkg name ver fn fnd burl : Str)
    (hres : resolveDep fetchAll system machine R S dep =
      .ok (.resolved pkg name ver fn fnd burl))
    (content : Bytes)
    (hex : fsLookup fs (jars ++ str "/" ++ fnd) = some content) :
    (∀ c, pyOr (dictGet m fnd) (dictGet m fn) = some c → c ≠ [] →
      strLower (sha content) = strLower c →
      _install_one_dependency req fetchAll system machine R S sha http tmp
        jars dep m fs = (.ok (), fs, [])) ∧
    (∀ c, pyOr (dictGet m fnd) (dictGet m fn) = some c → c ≠ [] →
      strLower (sha content) ≠ strLower c →
      _install_one_dependency req fetchAll system machine R S sha http tmp
        jars dep m fs =
        ((_download_with_verification sha http tmp (jars ++ str "/" ++ fnd)
            (some c) (fsErase fs (jars ++ str "/" ++ fnd))).1,
          (_download_with_verification sha http tmp (jars ++ str "/" ++ fnd)
            (some c) (fsErase fs (jars ++ str "/" ++ fnd))).2,
          [.removeExisting (jars ++ str "/" ++ fnd),
            .download (joinWith (str "/")
              [burl, replaceAll (str ".") (str "/") pkg, name, ver, fn])])) ∧
    (req = false → pyOr (dictGet m fnd) (dictGet m fn) = none →
      _install_one_dependency req fetchAll system machine R S sha http tmp
        jars dep m fs = (.ok (), fs, [])) := by
  refine ⟨?_, ?_, ?_⟩
  · intro c hc hcne hmatch
    unfold _install_one_dependency
    rw [hres]
    simp only [hc, hex]
    simp [strTruthy, hcne, hmatch]
  · intro c hc hcne hmm
    unfold _install_one_dependency
    rw [hres]
    simp only [hc, hex]
    simp [strTruthy, hcne, hmm]
  · intro hreq hc
    unfold _install_one_dependency
    rw [hres]
    simp only [hc, hex, hreq]
    simp [strTruthy]

/-- Witness for C5: reuse on checksum match, delete-and-redownload on
mismatch, and unverified reuse when no checksum is available. -/
theorem existing_dependency_reuse_policy_witness :
    _install_one_dependency false false (str "linux") (str "x") (str "R")
        (str "S") (fun _ => str "aa") (.resp 200 [] [9]) (str "t") (str "J")
        (str "org.x:lib:jar:1.0") [(str "lib-1.0.jar", str "AA")]
        [(str "J/lib-1.0.jar", [1])] =
      (.ok (), [(str "J/lib-1.0.jar", [1])], []) ∧
    _install_one_dependency false false (str "linux") (str "x") (str "R")
        (str "S") (fun _ => str "zz") (.resp 200 [] [9]) (str "t") (str "J")
        (str "org.x:lib:jar:1.0") [(str "lib-1.0.jar", str "AA")]
        [(str "J/lib-1.0.jar", [1])] =
      ((_download_with_verification (fun _ => str "zz") (.resp 200 [] [9])
          (str "t") (str "J" ++ str "/" ++ str "lib-1.0.jar")
          (some (str "AA"))
          (fsErase [(str "J/lib-1.0.jar", [1])]
            (str "J" ++ str "/" ++ str "lib-1.0.jar"))).1,
        (_download_with_verification (fun _ => str "zz") (.resp 200 [] [9])
          (str "t") (str "J" ++ str "/" ++ str "lib-1.0.jar")
          (some (str "AA"))
          (fsErase [(str "J/lib-1.0.jar", [1])]
            (str "J" ++ str "/" ++ str "lib-1.0.jar"))).2,
        [.removeExisting (str "J" ++ str "/" ++ str "lib-1.0.jar"),
          .download (joinWith (str "/")
            [str "R", replaceAll (str ".") (str "/") (str "org.x"),
              str "lib", str "1.0", str "lib-1.0.jar"])]) ∧
    _install_one_dependency false false (str "linux") (str "x") (str "R")
        (str "S") (fun _ => str "aa") (.resp 200 [] [9]) (str "t") (str "J")
        (str "org.x:lib:jar:1.0") [] [(str "J/lib-1.0.jar", [1])] =
      (.ok (), [(str "J/lib-1.0.jar", [1])], []) :=
  ⟨(existing_dependency_reuse_policy false false (str "linux") (str "x")
      (str "R") (str "S") (fun _ => str "aa") (.resp 200 [] [9]) (str "t")
      (str "J") (str "org.x:lib:jar:1.0") [(str "lib-1.0.jar", str "AA")]
      [(str "J/lib-1.0.jar", [1])] (str "org.x") (str "lib") (str "1.0")
      (str "lib-1.0.jar") (str "lib-1.0.jar") (str "R") (by decide) [1]
      (by decide)).1 (str "AA") (by decide) (by decide) (by decide),
    (existing_dependency_reuse_policy false false (str "linux") (str "x")
      (str "R") (str "S") (fun _ => str "zz") (.resp 200 [] [9]) (str "t")
      (str "J") (str "org.x:lib:jar:1.0") [(str "lib-1.0.jar", str "AA")]
      [(str "J/lib-1.0.jar", [1])] (str "org.x") (str "lib") (str "1.0")
      (str "lib-1.0.jar") (str "lib-1.0.jar") (str "R") (by decide) [1]
      (by decide)).2.1 (str "AA") (by decide) (by decide) (by decide),
    (existing_dependency_reuse_policy false false (str "linux") (str "x")
      (str "R") (str "S") (fun _ => str "aa") (.resp 200 [] [9]) (str "t")
      (str "J") (str "org.x:lib:jar:1.0") [] [(str "J/lib-1.0.jar", [1])]
      (str "org.x") (str "lib") (str "1.0") (str "lib-1.0.jar")
      (str "lib-1.0.jar") (str "R") (by decide) [1] (by decide)).2.2
      rfl (by decide)⟩

/-- C9 counterexample: under the fetch-all-native override (every classifier
matches), the 5-field snapshot descriptor with classifier `SNAPSHOT` yields
identical remote and local filenames, so the claimed distinctness fails. -/
theorem snapshot_filenames_can_coincide :
    _arch_matches_platform true (str "linux") (str "x") (str "SNAPSHOT") =
      true ∧
    containsSub (str "SNAPSHOT") (str "1.0-SNAPSHOT") = true ∧
    resolveDep true (str "linux") (str "x") (str "R") (str "S")
        (str "g:n:ext:SNAPSHOT:1.0-SNAPSHOT") =
      .ok (.resolved (str "g") (str "n") (str "1.0-SNAPSHOT")
        (str "n-1.0-SNAPSHOT.ext") (str "n-1.0-SNAPSHOT.ext") (str "S")) := by
  decide

/-- C9 (amended): a platform-matching 5-field descriptor with a snapshot
version resolves to remote filename `{name}-{versionWithoutMarker}-{arch}.{ext}`
and local filename `{name}-{version}.{ext}` under the snapshot base URL —
the two being distinct except in the degenerate case where
`{versionWithoutMarker}-{arch}` equals `{version}` — while a non-snapshot
5-field descriptor resolves both filenames to
`{name}-{version}-{arch}.{ext}` under the release base URL. -/
theorem snapshot_resolution_filenames (fetchAll : Bool)
    (system machine R S dep g n e a v : Str)
    (hsplit : splitOnChar ':' dep = [g, n, e, a, v])
    (hmatch : a = [] ∨ _arch_matches_platform fetchAll system machine a = true) :
    (containsSub (str "SNAPSHOT") v = true →
      resolveDep fetchAll system machine R S dep =
        .ok (.resolved g n v
          (n ++ str "-" ++ replaceAll (str "-SNAPSHOT") [] v ++ str "-" ++ a
            ++ str "." ++ e)
          (n ++ str "-" ++ v ++ str "." ++ e) S) ∧
      (replaceAll (str "-SNAPSHOT") [] v ++ str "-" ++ a ≠ v →
        n ++ str "-" ++ replaceAll (str "-SNAPSHOT") [] v ++ str "-" ++ a
          ++ str "." ++ e ≠ n ++ str "-" ++ v ++ str "." ++ e)) ∧
    (containsSub (str "SNAPSHOT") v = false →
      resolveDep fetchAll system machine R S dep =
        .ok (.resolved g n v
          (n ++ str "-" ++ v ++ str "-" ++ a ++ str "." ++ e)
          (n ++ str "-" ++ v ++ str "-" ++ a ++ str "." ++ e) R)) := by
  have hcond : ¬(a ≠ [] ∧
      ¬ _arch_matches_platform fetchAll system machine a = true) := by
    rcases hmatch with h | h
    · exact fun hc => hc.1 h
    · exact fun hc => hc.2 h
  constructor
  · intro hsnap
    constructor
    · unfold resolveDep
      rw [hsplit]
      dsimp only
      rw [if_neg hcond, if_pos hsnap]
    · intro hne heq
      apply hne
      have h0 : (n ++ str "-") ++
          ((replaceAll (str "-SNAPSHOT") [] v ++ str "-" ++ a) ++
            (str "." ++ e)) =
          (n ++ str "-") ++ (v ++ (str "." ++ e)) := by
        simpa only [List.append_assoc] using heq
      exact List.append_cancel_right (List.append_cancel_left h0)
  · intro hsnap
    unfold resolveDep
    rw [hsplit]
    dsimp only
    rw [if_neg hcond, if_neg (by simp [hsnap])]

/-- Witness for C9's amended theorem: the snapshot and non-snapshot branches
at concrete platform-matching descriptors, including distinctness of the
two snapshot filenames. -/
theorem snapshot_resolution_filenames_witness :
    (resolveDep false (str "linux") (str "x86_64") (str "R") (str "S")
        (str "org.x:lib:so:linux-x86_64:2.0-SNAPSHOT") =
      .ok (.resolved (str "org.x") (str "lib") (str "2.0-SNAPSHOT")
        (str "lib" ++ str "-" ++
          replaceAll (str "-SNAPSHOT") [] (str "2.0-SNAPSHOT") ++ str "-" ++
          str "linux-x86_64" ++ str "." ++ str "so")
        (str "lib" ++ str "-" ++ str "2.0-SNAPSHOT" ++ str "." ++ str "so")
        (str "S"))) ∧
    (str "lib" ++ str "-" ++
        replaceAll (str "-SNAPSHOT") [] (str "2.0-SNAPSHOT") ++ str "-" ++
        str "linux-x86_64" ++ str "." ++ str "so" ≠
      str "lib" ++ str "-" ++ str "2.0-SNAPSHOT" ++ str "." ++ str "so") ∧
    (resolveDep false (str "linux") (str "x86_64") (str "R") (str "S")
        (str "org.x:lib:so:linux-x86_64:2.0") =
      .ok (.resolved (str "org.x") (str "lib") (str "2.0")
        (str "lib" ++ str "-" ++ str "2.0" ++ str "-" ++
          str "linux-x86_64" ++ str "." ++ str "so")
        (str "lib" ++ str "-" ++ str "2.0" ++ str "-" ++
          str "linux-x86_64" ++ str "." ++ str "so")
        (str "R"))) :=
  ⟨((snapshot_resolution_filenames false (str "linux") (str "x86_64")
      (str "R") (str "S") (str "org.x:lib:so:linux-x86_64:2.0-SNAPSHOT")
      (str "org.x") (str "lib") (str "so") (str "linux-x86_64")
      (str "2.0-SNAPSHOT") (by decide) (Or.inr (by decide))).1
      (by decide)).1,
    ((snapshot_resolution_filenames false (str "linux") (str "x86_64")
      (str "R") (str "S") (str "org.x:lib:so:linux-x86_64:2.0-SNAPSHOT")
      (str "org.x") (str "lib") (str "so") (str "linux-x86_64")
      (str "2.0-SNAPSHOT") (by decide) (Or.inr (by decide))).1
      (by decide)).2 (by decide),
    (snapshot_resolution_filenames false (str "linux") (str "x86_64")
      (str "R") (str "S") (str "org.x:lib:so:linux-x86_64:2.0")
      (str "org.x") (str "lib") (str "so") (str "linux-x86_64")
      (str "2.0") (by decide) (Or.inr (by decide))).2 (by decide)⟩

/-- C4: when the cache directory exists without the version-tagged
`archery-{version}.jar` marker, the bootstrap deletes the whole cache
directory, reinstalls all dependencies, and only then launches the JVM —
the run performs exactly the wipe, install, launch sequence. -/
theorem stale_cache_wiped_and_reinstalled (skip force : Bool) (env : BootEnv)
    (st : BootState)
    (hact : skip = false ∨ force = true)
    (hrun : st.jvmRunning = false)
    (hdir : st.jarsDirExists = true) (hjar : st.expectedJarExists = false)
    (hrm : env.rmtreeOutcome = .ok ()) (hin : env.installOutcome = .ok ())
    (hla : env.launchOutcome = .ok ()) :
    start_java_archery_framework skip force env st =
      (.ok (),
        { lockHeld := false, jvm_started := true, jvmRunning := true,
          jarsDirExists := true, expectedJarExists := false },
        [.rmtreeCache, .installDeps, .launchJvm]) := by
  obtain ⟨lh, js, jr, jd, ej⟩ := st
  simp only at hrun hdir hjar
  subst hrun hdir hjar
  rcases hact with h | h <;> subst h <;>
    simp [start_java_archery_framework, hrm, hin, hla]

/-- Witness for C4: a concrete stale state is wiped, reinstalled and
launched. -/
theorem stale_cache_wiped_and_reinstalled_witness :
    start_java_archery_framework false false ⟨.ok (), .ok (), .ok ()⟩
        ⟨false, false, false, true, false⟩ =
      (.ok (),
        { lockHeld := false, jvm_started := true, jvmRunning := true,
          jarsDirExists := true, expectedJarExists := false },
        [.rmtreeCache, .installDeps, .launchJvm]) :=
  stale_cache_wiped_and_reinstalled false false ⟨.ok (), .ok (), .ok ()⟩
    ⟨false, false, false, true, false⟩ (Or.inl rfl) rfl rfl rfl rfl rfl rfl

/-- Any bootstrap call whose fallible sub-operations all succeed, starting
from a not-started, not-running state, returns successfully with
`_jvm_started` set and the lock released. -/
theorem start_env_ok_succeeds (skip force : Bool) (env2 : BootEnv)
    (st : BootState)
    (hsf : ¬(skip = true ∧ ¬ force = true))
    (hjs : st.jvm_started = false) (hjr : st.jvmRunning = false)
    (hr : env2.rmtreeOutcome = .ok ()) (hi : env2.installOutcome = .ok ())
    (hl : env2.launchOutcome = .ok ()) :
    ∃ st3 tr2, start_java_archery_framework skip force env2 st =
      (.ok (), st3, tr2) ∧ st3.jvm_started = true ∧ st3.lockHeld = false := by
  obtain ⟨lh, js, jr, jd, ej⟩ := st
  simp only at hjs hjr
  subst hjs hjr
  have hsf2 : ¬(skip = true ∧ force = false) := by simpa using hsf
  cases jd <;> cases ej
  · exact ⟨⟨false, true, true, true, false⟩, [.installDeps, .launchJvm],
      by simp [start_java_archery_framework, hsf2, hr, hi, hl], rfl, rfl⟩
  · exact ⟨⟨false, true, true, true, true⟩, [.installDeps, .launchJvm],
      by simp [start_java_archery_framework, hsf2, hr, hi, hl], rfl, rfl⟩
  · exact ⟨⟨false, true, true, true, false⟩,
      [.rmtreeCache, .installDeps, .launchJvm],
      by simp [start_java_archery_framework, hsf2, hr, hi, hl], rfl, rfl⟩
  · exact ⟨⟨false, true, true, true, true⟩, [.launchJvm],
      by simp [start_java_archery_framework, hsf2, hr, hi, hl], rfl, rfl⟩

/-- C3: a bootstrap call that fails during the stale-cache wipe, the
dependency install, or the JVM launch propagates the error, leaves
`_jvm_started` false, releases the lock, and a subsequent call with healthy
sub-operations retries the whole sequence and succeeds. -/
theorem bootstrap_failure_propagates_and_permits_retry (skip force : Bool)
    (env : BootEnv) (st : BootState) (e : PErr) (st2 : BootState)
    (tr : List BootAction)
    (hstart : st.jvm_started = false)
    (h : start_java_archery_framework skip force env st = (.error e, st2, tr)) :
    st2.jvm_started = false ∧ st2.lockHeld = false ∧
    ∀ env2 : BootEnv, env2.rmtreeOutcome = .ok () →
      env2.installOutcome = .ok () → env2.launchOutcome = .ok () →
      ∃ st3 tr2, start_java_archery_framework skip force env2 st2 =
        (.ok (), st3, tr2) ∧ st3.jvm_started = true ∧ st3.lockHeld = false := by
  obtain ⟨lh, js, jr, jd, ej⟩ := st
  obtain ⟨ro, io, lo⟩ := env
  simp only at hstart
  subst hstart
  by_cases hsf : skip = true ∧ ¬ force = true
  · unfold start_java_archery_framework at h
    rw [if_pos hsf] at h
    exact absurd h (by simp)
  · unfold start_java_archery_framework at h
    rw [if_neg hsf] at h
    cases jr with
    | true => simp at h
    | false =>
      cases jd <;> cases ej <;> cases ro <;> cases io <;> cases lo <;>
          simp at h <;>
        · obtain ⟨he, hst, htr⟩ := h
          subst hst
          refine ⟨rfl, rfl, ?_⟩
          intro env2 hr hi hl
          exact start_env_ok_succeeds skip force env2 _ hsf rfl rfl hr hi hl

/-- Witness for C3: a failed dependency install propagates, leaves the state
not-started with the lock free, and a healthy retry succeeds. -/
theorem bootstrap_failure_propagates_and_permits_retry_witness :
    (⟨false, false, false, false, false⟩ : BootState).jvm_started = false ∧
    (⟨false, false, false, false, false⟩ : BootState).lockHeld = false ∧
    ∀ env2 : BootEnv, env2.rmtreeOutcome = .ok () →
      env2.installOutcome = .ok () → env2.launchOutcome = .ok () →
      ∃ st3 tr2, start_java_archery_framework false false env2
          ⟨false, false, false, false, false⟩ =
        (.ok (), st3, tr2) ∧ st3.jvm_started = true ∧ st3.lockHeld = false :=
  bootstrap_failure_propagates_and_permits_retry false false
    ⟨.ok (), .error .ioFailure, .ok ()⟩ ⟨false, false, false, false, false⟩
    .ioFailure ⟨false, false, false, false, false⟩ [.installDeps] rfl
    (by decide)

/-- The inductive invariant of the interleaved bootstrap system: the lock
guards the critical program counters, a thread about to launch sees the JVM
down, at most one launch ever happens (exactly one once the JVM runs), and
every returned caller has observed the JVM up. -/
def CInv (n : Nat) (s : CState n) : Prop :=
  (∀ i, (s.pc i = TPC.check ∨ s.pc i = TPC.boot) → s.lock = some i) ∧
  (∀ i, s.pc i = TPC.boot → s.running = false) ∧
  s.launches ≤ 1 ∧
  (s.running = true ↔ s.launches = 1) ∧
  (s.started = true → s.running = true) ∧
  (∀ i, s.pc i = TPC.finished → s.started = true ∧ s.running = true)

theorem cInv_init (n : Nat) : CInv n (cInit n) := by
  refine ⟨?_, ?_, ?_, ?_, ?_, ?_⟩ <;> simp [cInit]

theorem cInv_step (n : Nat) (s s' : CState n) (h : CStep n s s')
    (hi : CInv n s) : CInv n s' := by
  obtain ⟨ha, hb, hc, hd, he, hf⟩ := hi
  cases h with
  | acquire i hpc hlock =>
    refine ⟨?_, ?_, hc, hd, he, ?_⟩
    · intro j hj
      by_cases hji : j = i
      · simp [hji]
      · exfalso
        simp only [Function.update_noteq hji] at hj
        have := ha j hj
        rw [hlock] at this
        exact Option.noConfusion this
    · intro j hj
      by_cases hji : j = i
      · subst hji
        simp [Function.update_same] at hj
      · simp only [Function.update_noteq hji] at hj
        exact hb j hj
    · intro j hj
      by_cases hji : j = i
      · subst hji
        simp [Function.update_same] at hj
      · simp only [Function.update_noteq hji] at hj
        exact hf j hj
  | fastReturn i hpc hlock hst hrun =>
    refine ⟨?_, ?_, hc, hd, he, ?_⟩
    · intro j hj
      by_cases hji : j = i
      · subst hji
        simp [Function.update_same] at hj
      · simp only [Function.update_noteq hji] at hj
        exact absurd (Option.some.inj ((ha j hj).symm.trans hlock)) hji
    · intro j hj
      by_cases hji : j = i
      · subst hji
        simp [Function.update_same] at hj
      · simp only [Function.update_noteq hji] at hj
        exact hb j hj
    · intro j hj
      by_cases hji : j = i
      · exact ⟨hst, hrun⟩
      · simp only [Function.update_noteq hji] at hj
        exact hf j hj
  | adoptExternal i hpc hlock hst hrun =>
    refine ⟨?_, ?_, hc, hd, fun _ => hrun, ?_⟩
    · intro j hj
      by_cases hji : j = i
      · subst hji
        simp [Function.update_same] at hj
      · simp only [Function.update_noteq hji] at hj
        exact absurd (Option.some.inj ((ha j hj).symm.trans hlock)) hji
    · intro j hj
      by_cases hji : j = i
      · subst hji
        simp [Function.update_same] at hj
      · simp only [Function.update_noteq hji] at hj
        exact hb j hj
    · intro j hj
      by_cases hji : j = i
      · exact ⟨rfl, hrun⟩
      · simp only [Function.update_noteq hji] at hj
        exact ⟨rfl, (hf j hj).2⟩
  | proceed i hpc hlock hrun =>
    refine ⟨?_, ?_, hc, hd, he, ?_⟩
    · intro j hj
      by_cases hji : j = i
      · subst hji
        exact hlock
      · simp only [Function.update_noteq hji] at hj
        exact ha j hj
    · intro j hj
      by_cases hji : j = i
      · exact hrun
      · simp only [Function.update_noteq hji] at hj
        exact hb j hj
    · intro j hj
      by_cases hji : j = i
      · subst hji
        simp [Function.update_same] at hj
      · simp only [Function.update_noteq hji] at hj
        exact hf j hj
  | launch i hpc hlock =>
    have hrun : s.running = false := hb i hpc
    have hl0 : s.launches = 0 := by
      rcases Nat.lt_or_ge s.launches 1 with h1 | h1
      · exact Nat.lt_one_iff.mp h1
      · exfalso
        have : s.launches = 1 := Nat.le_antisymm hc h1
        exact absurd (hd.mpr this) (by simp [hrun])
    refine ⟨?_, ?_, by simp [hl0], by simp [hl0], fun _ => rfl, ?_⟩
    · intro j hj
      by_cases hji : j = i
      · subst hji
        simp [Function.update_same] at hj
      · simp only [Function.update_noteq hji] at hj
        exact absurd (Option.some.inj ((ha j hj).symm.trans hlock)) hji
    · intro j hj
      by_cases hji : j = i
      · subst hji
        simp [Function.update_same] at hj
      · simp only [Function.update_noteq hji] at hj
        exact absurd (Option.some.inj ((ha j (Or.inr hj)).symm.trans
          hlock)) hji
    · intro j hj
      by_cases hji : j = i
      · exact ⟨rfl, rfl⟩
      · simp only [Function.update_noteq hji] at hj
        exact absurd ((hf j hj).2.symm.trans hrun) (by simp)

theorem cInv_reach (n : Nat) (s : CState n)
    (h : CReach n (cInit n) s) : CInv n s := by
  induction h with
  | refl => exact cInv_init n
  | tail _ hstep ih => exact cInv_step n _ _ hstep ih

/-- C1: in every interleaved execution of concurrent
`start_java_archery_framework` callers from the initial (unstarted) state,
once all callers have returned the JVM has been launched exactly once and
is observed started, and at any time at most one caller is inside the
locked section. -/
theorem jvm_launched_exactly_once (n : Nat) (hn : 0 < n) (s : CState n)
    (hreach : CReach n (cInit n) s) :
    ((∀ i, s.pc i = TPC.finished) →
      s.launches = 1 ∧ s.started = true ∧ s.running = true) ∧
    (∀ i j, (s.pc i = TPC.check ∨ s.pc i = TPC.boot) →
      (s.pc j = TPC.check ∨ s.pc j = TPC.boot) → i = j) := by
  obtain ⟨ha, _, _, hd, _, hf⟩ := cInv_reach n s hreach
  constructor
  · intro hall
    have h0 := hf ⟨0, hn⟩ (hall ⟨0, hn⟩)
    exact ⟨hd.mp h0.2, h0.1, h0.2⟩
  · intro i j hi hj
    exact Option.some.inj ((ha i hi).symm.trans (ha j hj))

/-- One caller acquiring the lock in the demonstration execution. -/
def cDemoA : CState 1 :=
  { cInit 1 with
      lock := some 0
      pc := Function.update (cInit 1).pc 0 TPC.check }

/-- The caller proceeding to the install-and-start sequence. -/
def cDemoB : CState 1 :=
  { cDemoA with pc := Function.update cDemoA.pc 0 TPC.boot }

/-- The caller launching the JVM and returning. -/
def cDemoC : CState 1 :=
  { cDemoB with
      running := true
      started := true
      launches := cDemoB.launches + 1
      lock := none
      pc := Function.update cDemoB.pc 0 TPC.finished }

/-- Witness for C1: a concrete single-caller execution reaches a state where
every caller has returned, with exactly one JVM launch and the started flag
observed. -/
theorem jvm_launched_exactly_once_witness :
    cDemoC.launches = 1 ∧ cDemoC.started = true ∧ cDemoC.running = true := by
  have stepA : CStep 1 (cInit 1) cDemoA := by
    unfold cDemoA
    exact CStep.acquire (cInit 1) 0 rfl rfl
  have stepB : CStep 1 cDemoA cDemoB := by
    unfold cDemoB
    exact CStep.proceed cDemoA 0 rfl rfl rfl
  have stepC : CStep 1 cDemoB cDemoC := by
    unfold cDemoC
    exact CStep.launch cDemoB 0 rfl rfl
  have hreach : CReach 1 (cInit 1) cDemoC :=
    Relation.ReflTransGen.tail
      (Relation.ReflTransGen.tail (Relation.ReflTransGen.single stepA) stepB)
      stepC
  refine (jvm_launched_exactly_once 1 (by decide) cDemoC hreach).1 ?_
  intro i
  rw [Fin.eq_zero i]
  simp [cDemoC, Function.update_same]
